import Mathlib

/-!
Verification development for the WordPress traffic generator
(`wordpress_traffic_generator.py`): a fleet of LLM-driven browsing and
administration agents run concurrently against a WordPress site by an
orchestrator.

The Python program is shallowly embedded: pure computations (decision-text
parsing, the browser-mix allocation arithmetic, link selection) are
translated directly; effectful operations (Playwright page interactions,
LLM calls, random draws) are modelled by threading their observable
outcomes through explicit input records, and each agent's `run` loop
becomes a fold over a list of per-cycle inputs.  Python strings are
modelled as `List Char`; Python `random.random()` draws as rationals in
`[0,1)`; Python exceptions as explicit exit kinds.
-/

/-! ## Python string primitives

The decision parsers use `in` (substring test), `str.split(':')`,
`str.strip()` and `int(...)`.  They are modelled on `List Char`.
-/

/-- Python strings are modelled as lists of characters. -/
abbrev Str := List Char

/-- Python substring test `needle in hay`. -/
def strContains (hay needle : Str) : Bool :=
  (List.range (hay.length + 1)).any fun i => needle.isPrefixOf (hay.drop i)

/-- Python `s.split(sep)` for a one-character separator: splits on every
occurrence, keeping empty pieces (so the result is always nonempty). -/
def splitOnChar (sep : Char) (s : Str) : List Str :=
  s.foldr
    (fun c acc =>
      if c = sep then [] :: acc
      else
        match acc with
        | h :: t => (c :: h) :: t
        | [] => [[c]])
    [[]]

/-- Python whitespace as recognised by `str.strip()`. -/
def pyIsSpace (c : Char) : Bool :=
  c = ' ' || c = '\t' || c = '\n' || c = '\r' || c = '\x0b' || c = '\x0c'

/-- Python `s.strip()`: drop leading and trailing whitespace. -/
def pyStrip (s : Str) : Str :=
  ((s.dropWhile pyIsSpace).reverse.dropWhile pyIsSpace).reverse

/-- Value of a nonempty all-digit character list. -/
def digitsVal? (s : Str) : Option ℕ :=
  if s = [] then none
  else if s.all (fun c => c.isDigit) then
    some (s.foldl (fun n c => 10 * n + (c.toNat - 48)) 0)
  else none

/-- Python `int(s)` (base 10) on a string, `none` when Python would raise
`ValueError`: optional sign before a nonempty digit string, surrounding
whitespace allowed. -/
def pyParseInt? (s : Str) : Option ℤ :=
  match pyStrip s with
  | '-' :: rest => (digitsVal? rest).map (fun n => -(n : ℤ))
  | '+' :: rest => (digitsVal? rest).map (fun n => (n : ℤ))
  | t => (digitsVal? t).map (fun n => (n : ℤ))

/-! ## Decision-text parsing

`UserAgent._decide_action` and `AdminAgent._decide_action` scan the LLM
response line by line for `ACTION:` / `LINK_NUMBER:` / `ITEM_NUMBER:`
markers.  The browsing parser starts from the default action `read`; the
administration parser starts from Python `None` (modelled as `none`).
-/

/-- The `ACTION:` marker searched for on each line. -/
def actionMarker : Str := "ACTION:".data

/-- The `LINK_NUMBER:` marker of the browsing-session parser. -/
def linkNumberMarker : Str := "LINK_NUMBER:".data

/-- The `ITEM_NUMBER:` marker of the administration-session parser. -/
def itemNumberMarker : Str := "ITEM_NUMBER:".data

/-- Closed action enumeration of a browsing session
(`read`, `click_link`, `comment`, `homepage`, `end_session`). -/
inductive UserAction
  | read
  | clickLink
  | comment
  | homepage
  | endSession
  deriving DecidableEq, Repr

/-- Closed action enumeration of an administration session
(`approve`, `reject`, `reply`, `create_post`, `end`). -/
inductive AdminAction
  | approve
  | reject
  | reply
  | createPost
  | endSession
  deriving DecidableEq, Repr

/-- One loop iteration of `UserAgent._decide_action`'s response parsing:
if the line contains `ACTION:`, the text after the first `:` selects the
action by digit containment (checked in order `1`..`5`); if the line
contains `LINK_NUMBER:`, the text after the first `:` is parsed as an
int, defaulting to 1 on a parse error. -/
def parseUserLine (st : UserAction × ℤ) (line : Str) : UserAction × ℤ :=
  let st1 :=
    if strContains line actionMarker then
      let actionNum := pyStrip ((splitOnChar ':' line).getD 1 [])
      if actionNum.contains '1' then (UserAction.read, st.2)
      else if actionNum.contains '2' then (UserAction.clickLink, st.2)
      else if actionNum.contains '3' then (UserAction.comment, st.2)
      else if actionNum.contains '4' then (UserAction.homepage, st.2)
      else if actionNum.contains '5' then (UserAction.endSession, st.2)
      else st
    else st
  if strContains line linkNumberMarker then
    match pyParseInt? ((splitOnChar ':' line).getD 1 []) with
    | some n => (st1.1, n)
    | none => (st1.1, 1)
  else st1

/-- `UserAgent._decide_action` response parsing over the split lines;
the initial state is (`read`, 0). -/
def userDecideLines (lines : List Str) : UserAction × ℤ :=
  lines.foldl parseUserLine (UserAction.read, 0)

/-- `UserAgent._decide_action`: split the LLM response on newlines and
fold the line parser.  Returns the action and the raw link number. -/
def UserAgent.decide_action (response : Str) : UserAction × ℤ :=
  userDecideLines (splitOnChar '\n' response)

/-- One loop iteration of `AdminAgent._decide_action`'s response parsing.
Identical marker handling, but the action starts as Python `None` and the
index marker is `ITEM_NUMBER:`. -/
def parseAdminLine (st : Option AdminAction × ℤ) (line : Str) :
    Option AdminAction × ℤ :=
  let st1 :=
    if strContains line actionMarker then
      let actionNum := pyStrip ((splitOnChar ':' line).getD 1 [])
      if actionNum.contains '1' then (some AdminAction.approve, st.2)
      else if actionNum.contains '2' then (some AdminAction.reject, st.2)
      else if actionNum.contains '3' then (some AdminAction.reply, st.2)
      else if actionNum.contains '4' then (some AdminAction.createPost, st.2)
      else if actionNum.contains '5' then (some AdminAction.endSession, st.2)
      else st
    else st
  if strContains line itemNumberMarker then
    match pyParseInt? ((splitOnChar ':' line).getD 1 []) with
    | some n => (st1.1, n)
    | none => (st1.1, 1)
  else st1

/-- `AdminAgent._decide_action` response parsing over the split lines;
the initial state is (Python `None`, 0). -/
def adminDecideLines (lines : List Str) : Option AdminAction × ℤ :=
  lines.foldl parseAdminLine (none, 0)

/-- `AdminAgent._decide_action`: parse the response, then validate the
item number: an index outside `[1, len(pending)]` is replaced by
`random.randint(1, len(pending))` when the pending list is nonempty and
by 0 otherwise.  The random draw is modelled by `remapDraw`; the value
`1 + remapDraw % pendingLen` ranges over exactly the support
`[1, pendingLen]` of `randint`. -/
def AdminAgent.decide_action (response : Str) (pendingLen : ℕ)
    (remapDraw : ℕ) : Option AdminAction × ℤ :=
  let parsed := adminDecideLines (splitOnChar '\n' response)
  if parsed.2 < 1 ∨ (pendingLen : ℤ) < parsed.2 then
    (parsed.1, if pendingLen ≠ 0 then (1 + (remapDraw % pendingLen) : ℕ) else 0)
  else parsed

/-- The n-th action (1-based) of the browsing enumeration, in the order the
prompt presents them (1 READ, 2 CLICK_LINK, 3 COMMENT, 4 HOMEPAGE, 5 END). -/
def userActionAt (n : ℕ) : UserAction :=
  [UserAction.read, UserAction.clickLink, UserAction.comment,
   UserAction.homepage, UserAction.endSession].getD (n - 1) UserAction.read

/-- The n-th action (1-based) of the administration enumeration
(1 APPROVE_COMMENT, 2 REJECT_COMMENT, 3 REPLY_COMMENT, 4 CREATE_POST,
5 END_SESSION). -/
def adminActionAt (n : ℕ) : AdminAction :=
  [AdminAction.approve, AdminAction.reject, AdminAction.reply,
   AdminAction.createPost, AdminAction.endSession].getD (n - 1) AdminAction.approve

/-- A one-digit character (`digitChar 3 = '3'`). -/
def digitChar (n : ℕ) : Char := Char.ofNat (48 + n)

/-- The guidance line `ACTION: n`. -/
def actionLine (n : ℕ) : Str := "ACTION: ".data ++ [digitChar n]

/-! ## Browser fleet allocation

`AgentOrchestrator._assign_browser_types` computes
`num_chrome = int(total * pct_chrome)`, `num_webkit = int(total * pct_webkit)`,
`num_firefox = total - num_chrome - num_webkit`, builds the list
`chromium * num_chrome ++ webkit * num_webkit ++ firefox * max(1, num_firefox)`,
shuffles it, and truncates to `total` entries.  Percentages are modelled as
exact rationals and `random.shuffle` as an arbitrary permutation-producing
function supplied as a parameter.
-/

/-- The three Playwright browser families. -/
inductive BrowserType
  | chromium
  | webkit
  | firefox
  deriving DecidableEq, Repr

/-- Python `int(n * p)` for a natural `n` and rational `p`: exact
multiplication followed by truncation toward zero (`Int.tdiv` of the
unreduced numerator by the denominator). -/
def pyIntMul (n : ℕ) (p : ℚ) : ℤ := ((n : ℤ) * p.num).tdiv (p.den : ℤ)

/-- `num_chrome = int(total * browser_chrome_pct)`. -/
def chromeCount (total : ℕ) (pc : ℚ) : ℤ := pyIntMul total pc

/-- `num_webkit = int(total * browser_webkit_pct)`. -/
def webkitCount (total : ℕ) (pw : ℚ) : ℤ := pyIntMul total pw

/-- `num_firefox = total - num_chrome - num_webkit`. -/
def firefoxCount (total : ℕ) (pc pw : ℚ) : ℤ :=
  (total : ℤ) - chromeCount total pc - webkitCount total pw

/-- The list built before the shuffle:
`["chromium"] * num_chrome + ["webkit"] * num_webkit + ["firefox"] * max(1, num_firefox)`.
Multiplying a Python list by a negative count yields the empty list, which
`Int.toNat` reproduces. -/
def browserPool (total : ℕ) (pc pw : ℚ) : List BrowserType :=
  List.replicate (chromeCount total pc).toNat BrowserType.chromium ++
  List.replicate (webkitCount total pw).toNat BrowserType.webkit ++
  List.replicate (max 1 (firefoxCount total pc pw)).toNat BrowserType.firefox

/-- `AgentOrchestrator._assign_browser_types`: build the pool for
`total = num_users + num_admins`, shuffle it, and keep the first `total`
entries.  `random.shuffle` is modelled by the `shuffle` parameter; theorems
assume it permutes its input. -/
def AgentOrchestrator.assign_browser_types (num_users num_admins : ℕ)
    (pc pw : ℚ) (shuffle : List BrowserType → List BrowserType) :
    List BrowserType :=
  (shuffle (browserPool (num_users + num_admins) pc pw)).take
    (num_users + num_admins)

/-! ## Browsing-session link selection

`UserAgent._click_link`: with no candidates the agent navigates home;
otherwise an out-of-range link number is clamped to 1, and if the chosen
link was already visited the first unvisited candidate (in list order) is
substituted when one exists.  The target's href is added to the visited
set before navigation, so it is recorded even if the navigation fails.
-/

/-- A candidate link as extracted from the page (`href` plus display text). -/
structure Link where
  href : Str
  text : Str
  deriving DecidableEq, Repr

/-- Where `_click_link` navigates: the site homepage or a post link. -/
inductive NavTarget
  | homeNav
  | postNav (target : Link)
  deriving DecidableEq, Repr

/-- The candidate selected by the oracle's (clamped) 1-based link number. -/
def oracleChosen (linkNumber : ℤ) (links : List Link) : Link :=
  let n := if linkNumber < 1 ∨ (links.length : ℤ) < linkNumber then 1 else linkNumber
  links.getD (n.toNat - 1) ⟨[], []⟩

/-- `UserAgent._click_link`: returns the navigation target and the updated
visited-url set. -/
def UserAgent.click_link (visited : List Str) (linkNumber : ℤ)
    (links : List Link) : NavTarget × List Str :=
  if links = [] then (NavTarget.homeNav, visited)
  else
    let chosen := oracleChosen linkNumber links
    let target :=
      if visited.contains chosen.href then
        match links.find? (fun l => !(visited.contains l.href)) with
        | some l => l
        | none => chosen
      else chosen
    (NavTarget.postNav target, target.href :: visited)

/-! ## Per-cycle inputs and session state

Effectful primitives are modelled by their observable outcomes, supplied
per cycle: page observations, the LLM response text, random draws, and
flags recording whether an operation raised an exception at a point the
Python code does not catch locally.
-/

/-- How one decision cycle ends: fall through to the next cycle, leave the
loop via `break` (the `end` action), or leave it by raising an exception
that the per-session `try` will catch. -/
inductive CycleExit
  | nextCycle
  | ended
  | raised
  deriving DecidableEq, Repr

/-- Observable page state for one browsing-session cycle
(`UserAgent._get_page_info`). -/
structure PageInfo where
  title : Str
  url : Str
  content : Str
  links : List Link
  hasCommentForm : Bool
  deriving DecidableEq, Repr

/-- Outcomes of the effectful operations of one browsing-session cycle.
`observeRaises`: `page.title()` (uncaught) raised during `_get_page_info`;
`oracleRaises`: the LLM call raised in `_decide_action`;
`actRaises`: an operation with no local handler raised while executing the
action (scroll evaluation in `_simulate_reading`, comment-text LLM call in
`_leave_comment`, homepage `goto`, the empty-candidate `goto` in
`_click_link`);
`navFails`: the locally caught `goto` in `_click_link` failed;
`commentSubmitFails`: the locally caught form interaction in
`_leave_comment` failed. -/
structure UserCycleInput where
  page : PageInfo
  observeRaises : Bool
  oracle : Str
  oracleRaises : Bool
  actRaises : Bool
  navFails : Bool
  commentSubmitFails : Bool
  deriving DecidableEq, Repr

/-- Mutable browsing-session state (`UserAgent` attributes). -/
structure UserState where
  actionCount : ℕ
  visitedUrls : List Str
  pagesVisited : List Str
  commentsMade : ℕ
  deriving DecidableEq, Repr

/-- Fresh browsing-session state. -/
def initialUserState : UserState := ⟨0, [], [], 0⟩

/-- Result of one browsing-session cycle. -/
structure UserCycleResult where
  state : UserState
  exitKind : CycleExit
  nav : Option NavTarget
  deriving DecidableEq, Repr

/-- One iteration of the `while` loop in `UserAgent.run`: increment the
action counter, observe the page, consult the oracle, execute the decided
action.  Exceptions modelled by the input flags escape the cycle
(`CycleExit.raised`); the `end_session` action breaks the loop. -/
def UserAgent.cycle (st0 : UserState) (inp : UserCycleInput) : UserCycleResult :=
  let st := { st0 with actionCount := st0.actionCount + 1 }
  if inp.observeRaises then ⟨st, CycleExit.raised, none⟩
  else
    let st := { st with pagesVisited := st.pagesVisited ++ [inp.page.title] }
    if inp.oracleRaises then ⟨st, CycleExit.raised, none⟩
    else
      let dec := UserAgent.decide_action inp.oracle
      match dec.1 with
      | UserAction.read =>
        if inp.actRaises then ⟨st, CycleExit.raised, none⟩
        else ⟨st, CycleExit.nextCycle, none⟩
      | UserAction.clickLink =>
        if inp.page.links = [] then
          if inp.actRaises then ⟨st, CycleExit.raised, none⟩
          else ⟨st, CycleExit.nextCycle, some NavTarget.homeNav⟩
        else
          let r := UserAgent.click_link st.visitedUrls dec.2 inp.page.links
          ⟨{ st with visitedUrls := r.2 }, CycleExit.nextCycle, some r.1⟩
      | UserAction.comment =>
        if inp.page.hasCommentForm = false then ⟨st, CycleExit.nextCycle, none⟩
        else if inp.actRaises then ⟨st, CycleExit.raised, none⟩
        else if inp.commentSubmitFails then ⟨st, CycleExit.nextCycle, none⟩
        else ⟨{ st with commentsMade := st.commentsMade + 1 }, CycleExit.nextCycle, none⟩
      | UserAction.homepage =>
        if inp.actRaises then ⟨st, CycleExit.raised, none⟩
        else ⟨st, CycleExit.nextCycle, some NavTarget.homeNav⟩
      | UserAction.endSession => ⟨st, CycleExit.ended, none⟩

/-- The `while (elapsed < duration)` loop of `UserAgent.run`: the drawn
session duration is modelled by the length of the input list (the loop
condition turns false exactly when the inputs are exhausted).  Returns the
final state and whether the session-level `except` logged an error. -/
def UserAgent.loop : UserState → List UserCycleInput → UserState × Bool
  | st, [] => (st, false)
  | st, inp :: rest =>
    let r := UserAgent.cycle st inp
    match r.exitKind with
    | CycleExit.nextCycle => UserAgent.loop r.state rest
    | CycleExit.ended => (r.state, false)
    | CycleExit.raised => (r.state, true)

/-- Observable outcome of one whole agent `run`. -/
structure RunOutcome (σ : Type) where
  finalState : σ
  errorLogged : Bool
  closeCalls : ℕ
  summaryEmitted : Bool
  propagates : Bool
  deriving DecidableEq, Repr

/-- `UserAgent.run`: context creation and `new_page` happen before the
`try`, so their failure propagates out of `run` with the context never
closed.  The initial homepage `goto` and the cycle loop run inside the
`try`; any exception there is logged and control reaches the `finally`,
which closes the context exactly once.  If `context.close()` itself
raises, the exception propagates and the final summary line is never
printed. -/
def UserAgent.run (acquireOk newPageOk : Bool)
    (initialGotoRaises closeRaises : Bool)
    (inputs : List UserCycleInput) : RunOutcome UserState :=
  if acquireOk = false then ⟨initialUserState, false, 0, false, true⟩
  else if newPageOk = false then ⟨initialUserState, false, 0, false, true⟩
  else
    let r :=
      if initialGotoRaises then (initialUserState, true)
      else UserAgent.loop initialUserState inputs
    if closeRaises then ⟨r.1, r.2, 1, false, true⟩
    else ⟨r.1, r.2, 1, true, false⟩

/-! ## Administration session

`AdminAgent.run`: each cycle fetches pending/approved comments and recent
posts, applies the forced-content policy, and otherwise consults the LLM
and dispatches on the parsed action.  `_create_post` counts a publication
as successful only when a confirmation signal (a `.components-snackbar`
element, or `post=` in the page URL) is observed after clicking publish.
-/

/-- A comment row as scraped from the moderation tables. -/
structure Comment where
  id : Str
  author : Str
  content : Str
  postTitle : Str
  deriving DecidableEq, Repr

/-- Observable outcome of the publish phase of `AdminAgent._create_post`:
whether a publish button was found, and which confirmation signals were
observed afterwards. -/
structure PublishEnv where
  publishBtnFound : Bool
  snackbarPresent : Bool
  urlHasPost : Bool
  deriving DecidableEq, Repr

/-- `_create_post` counts the post as created exactly when the publish
button was found and either the snackbar appeared or `post=` appeared in
the page URL. -/
def publishConfirmed (env : PublishEnv) : Bool :=
  env.publishBtnFound && (env.snackbarPresent || env.urlHasPost)

/-- Mutable administration-session state (`AdminAgent` attributes):
`posts_created` counts confirmed publications, `session_posts_created`
counts create-post attempts and is the counter read by the
forced-content policy. -/
structure AdminState where
  actionCount : ℕ
  sessionPostsCreated : ℕ
  postsCreated : ℕ
  commentsApproved : ℕ
  commentsRejected : ℕ
  commentsReplied : ℕ
  deriving DecidableEq, Repr

/-- Fresh administration-session state. -/
def initialAdminState : AdminState := ⟨0, 0, 0, 0, 0, 0⟩

/-- Outcomes of the effectful operations of one administration cycle.
`observeRaises`: an uncaught `goto` raised while fetching the comment /
post lists; `forceDraw`: the `random.random()` value consumed by whichever
branch of the forced-content check runs; `oracleRaises`: the LLM call in
`_decide_action` raised; `remapDraw` / `replyDraw`: the `randint` /
`random.choice` draws; `moderateOk` / `replyOk`: the moderation or reply
DOM interaction found its row and buttons (locally checked, no exception);
`createEnv`: publish-confirmation signals of `_create_post`; `actRaises`:
an operation with no local handler raised while executing the chosen
action (e.g. `goto` in `_moderate_comment`, `wait_for_selector` in
`_reply_to_comment`, the content-generation calls of `_create_post`). -/
structure AdminCycleInput where
  pending : List Comment
  approved : List Comment
  recentPosts : List Str
  observeRaises : Bool
  forceDraw : ℚ
  oracle : Str
  oracleRaises : Bool
  remapDraw : ℕ
  replyDraw : ℕ
  moderateOk : Bool
  replyOk : Bool
  createEnv : PublishEnv
  actRaises : Bool
  deriving DecidableEq, Repr

/-- The forced-content check of `AdminAgent.run`: with no post created yet
this session and the (incremented) action counter at least 3, force with
probability 0.40 (`forceDraw < 2/5`); otherwise force with probability
0.15 (`forceDraw < 3/20`). -/
def forcePostDecision (sessionPostsCreated actionCount : ℕ) (u : ℚ) : Bool :=
  if sessionPostsCreated = 0 ∧ 3 ≤ actionCount then decide (u < mkRat 2 5)
  else decide (u < mkRat 3 20)

/-- Counter effect of one completed `_create_post` call: `posts_created`
is incremented only on a confirmation signal. -/
def createPostStep (st : AdminState) (env : PublishEnv) : AdminState :=
  if publishConfirmed env then { st with postsCreated := st.postsCreated + 1 }
  else st

/-- What one administration cycle carried out. -/
inductive AdminActed
  | moderatedApprove
  | moderatedReject
  | replied
  | createdPost
  | sessionEnd
  | noAct
  deriving DecidableEq, Repr

/-- Result of one administration cycle. -/
structure AdminCycleResult where
  state : AdminState
  exitKind : CycleExit
  forced : Bool
  oracleConsulted : Bool
  acted : AdminActed
  deriving DecidableEq, Repr

/-- One iteration of the `while` loop in `AdminAgent.run`: increment the
action counter, fetch the moderation lists, run the forced-content check
(skipping the oracle entirely when it fires), otherwise consult and parse
the oracle and dispatch: approve/reject need a nonempty pending list and a
positive index; reply needs a nonempty approved list; `create_post`
publishes; `end` breaks the loop; with both lists empty any other outcome
falls back to creating a post.  `session_posts_created` is incremented
after every `_create_post` call that returns. -/
def AdminAgent.cycle (st0 : AdminState) (inp : AdminCycleInput) :
    AdminCycleResult :=
  let st := { st0 with actionCount := st0.actionCount + 1 }
  if inp.observeRaises then ⟨st, CycleExit.raised, false, false, AdminActed.noAct⟩
  else
    let forced := forcePostDecision st.sessionPostsCreated st.actionCount inp.forceDraw
    if forced then
      if inp.actRaises then ⟨st, CycleExit.raised, true, false, AdminActed.noAct⟩
      else
        let st1 := createPostStep st inp.createEnv
        ⟨{ st1 with sessionPostsCreated := st1.sessionPostsCreated + 1 },
          CycleExit.nextCycle, true, false, AdminActed.createdPost⟩
    else if inp.oracleRaises then
      ⟨st, CycleExit.raised, false, true, AdminActed.noAct⟩
    else
      let dec := AdminAgent.decide_action inp.oracle inp.pending.length inp.remapDraw
      if (dec.1 = some AdminAction.approve ∨ dec.1 = some AdminAction.reject)
          ∧ inp.pending ≠ [] ∧ 0 < dec.2 then
        if inp.actRaises then ⟨st, CycleExit.raised, false, true, AdminActed.noAct⟩
        else if inp.moderateOk then
          if dec.1 = some AdminAction.approve then
            ⟨{ st with commentsApproved := st.commentsApproved + 1 },
              CycleExit.nextCycle, false, true, AdminActed.moderatedApprove⟩
          else
            ⟨{ st with commentsRejected := st.commentsRejected + 1 },
              CycleExit.nextCycle, false, true, AdminActed.moderatedReject⟩
        else ⟨st, CycleExit.nextCycle, false, true, AdminActed.noAct⟩
      else if dec.1 = some AdminAction.reply ∧ inp.approved ≠ [] then
        if inp.actRaises then ⟨st, CycleExit.raised, false, true, AdminActed.noAct⟩
        else if inp.replyOk then
          ⟨{ st with commentsReplied := st.commentsReplied + 1 },
            CycleExit.nextCycle, false, true, AdminActed.replied⟩
        else ⟨st, CycleExit.nextCycle, false, true, AdminActed.noAct⟩
      else if dec.1 = some AdminAction.createPost then
        if inp.actRaises then ⟨st, CycleExit.raised, false, true, AdminActed.noAct⟩
        else
          let st1 := createPostStep st inp.createEnv
          ⟨{ st1 with sessionPostsCreated := st1.sessionPostsCreated + 1 },
            CycleExit.nextCycle, false, true, AdminActed.createdPost⟩
      else if dec.1 = some AdminAction.endSession then
        ⟨st, CycleExit.ended, false, true, AdminActed.sessionEnd⟩
      else if inp.pending = [] ∧ inp.approved = [] then
        if inp.actRaises then ⟨st, CycleExit.raised, false, true, AdminActed.noAct⟩
        else
          let st1 := createPostStep st inp.createEnv
          ⟨{ st1 with sessionPostsCreated := st1.sessionPostsCreated + 1 },
            CycleExit.nextCycle, false, true, AdminActed.createdPost⟩
      else ⟨st, CycleExit.nextCycle, false, true, AdminActed.noAct⟩

/-- The `while` loop of `AdminAgent.run` over the per-cycle inputs;
returns the final state and whether the session-level `except` logged an
error. -/
def AdminAgent.loop : AdminState → List AdminCycleInput → AdminState × Bool
  | st, [] => (st, false)
  | st, inp :: rest =>
    let r := AdminAgent.cycle st inp
    match r.exitKind with
    | CycleExit.nextCycle => AdminAgent.loop r.state rest
    | CycleExit.ended => (r.state, false)
    | CycleExit.raised => (r.state, true)

/-- `AdminAgent.run`: like `UserAgent.run` but with the login step (inside
the `try`) in place of the initial homepage navigation. -/
def AdminAgent.run (acquireOk newPageOk : Bool)
    (loginRaises closeRaises : Bool)
    (inputs : List AdminCycleInput) : RunOutcome AdminState :=
  if acquireOk = false then ⟨initialAdminState, false, 0, false, true⟩
  else if newPageOk = false then ⟨initialAdminState, false, 0, false, true⟩
  else
    let r :=
      if loginRaises then (initialAdminState, true)
      else AdminAgent.loop initialAdminState inputs
    if closeRaises then ⟨r.1, r.2, 1, false, true⟩
    else ⟨r.1, r.2, 1, true, false⟩

/-! ## Orchestrator

`AgentOrchestrator.run` starts one task per agent and awaits
`asyncio.gather(*tasks)`; its `except` clause catches only
`asyncio.CancelledError`, so an exception propagating out of any single
agent's `run` propagates out of `gather`, reaches the `finally` that stops
every browser (tearing down the sessions still running), and escapes
`AgentOrchestrator.run` — aborting the whole fleet.
-/

/-- Full parameterisation of one agent session for an orchestrator run. -/
inductive AgentSpec
  | userSpec (acquireOk newPageOk initialGotoRaises closeRaises : Bool)
      (inputs : List UserCycleInput)
  | adminSpec (acquireOk newPageOk loginRaises closeRaises : Bool)
      (inputs : List AdminCycleInput)

/-- Whether this agent's `run` propagates an exception out of its task. -/
def AgentSpec.propagates : AgentSpec → Bool
  | AgentSpec.userSpec a n g c i => (UserAgent.run a n g c i).propagates
  | AgentSpec.adminSpec a n l c i => (AdminAgent.run a n l c i).propagates

/-- Whether this agent's `run` reaches its final per-session summary line. -/
def AgentSpec.summaryEmitted : AgentSpec → Bool
  | AgentSpec.userSpec a n g c i => (UserAgent.run a n g c i).summaryEmitted
  | AgentSpec.adminSpec a n l c i => (AdminAgent.run a n l c i).summaryEmitted

/-- Whether this agent session runs inside its `try`/`finally` envelope:
context and page acquisition succeeded and the context release does not
raise.  Exceptions anywhere else are absorbed by the session. -/
def AgentSpec.boundaryOk : AgentSpec → Bool
  | AgentSpec.userSpec a n _ c _ => a && n && !c
  | AgentSpec.adminSpec a n _ c _ => a && n && !c

/-- Outcome of one orchestrator run. -/
structure OrchestratorResult where
  aborts : Bool
  browsersStopped : Bool
  deriving DecidableEq, Repr

/-- `AgentOrchestrator.run` over a fleet: `gather` re-raises the first
exception escaping any agent task (aborting the run); the `finally`
stops the browsers in every case. -/
def AgentOrchestrator.run (fleet : List AgentSpec) : OrchestratorResult :=
  ⟨fleet.any AgentSpec.propagates, true⟩

/-! ## Concrete fixtures

Closed inputs used by the per-claim counterexamples and witnesses. -/

/-- A page with no links and no comment form. -/
def pagePlain : PageInfo :=
  ⟨"Home".data, "https://wp-lab/".data, "Welcome".data, [], false⟩

/-- A browsing cycle whose oracle call raises (Deciding-phase failure). -/
def userCycleOracleRaises : UserCycleInput :=
  ⟨pagePlain, false, "ACTION: 1".data, true, false, false, false⟩

/-- A benign browsing cycle: the oracle answers `ACTION: 1` (read). -/
def userCycleReads : UserCycleInput :=
  ⟨pagePlain, false, "ACTION: 1".data, false, false, false, false⟩

/-- An agent whose browser-context acquisition fails. -/
def agentAcquireFails : AgentSpec :=
  AgentSpec.userSpec false true false false []

/-- An agent whose whole envelope is healthy. -/
def agentHealthy : AgentSpec :=
  AgentSpec.userSpec true true false false [userCycleReads]

/-- Administration state in its third cycle with no post created yet. -/
def adminStateThirdCycle : AdminState := ⟨2, 0, 0, 0, 0, 0⟩

/-- A forced-create administration cycle: draw 1/5 under the 0.40 branch. -/
def adminCycleForced : AdminCycleInput :=
  ⟨[], [], [], false, mkRat 1 5, "ACTION: 3".data, false, 0, 0, true, true,
    ⟨true, true, false⟩, false⟩

/-- An administration cycle with empty moderation queues whose oracle
chooses `END_SESSION`, under a non-forcing draw of 1/2. -/
def adminCycleOracleEnds : AdminCycleInput :=
  ⟨[], [], [], false, mkRat 1 2, "ACTION: 5".data, false, 0, 0, true, true,
    ⟨true, true, true⟩, false⟩

/-- An administration cycle with empty moderation queues and markerless
guidance, under a non-forcing draw of 1/2. -/
def adminCycleStarved : AdminCycleInput :=
  ⟨[], [], [], false, mkRat 1 2, "Let me think about it.".data, false, 0, 0,
    true, true, ⟨true, false, true⟩, false⟩

/-- A non-forced create-post cycle (draw 1/10 under the 0.15 branch),
with the publish confirmed by the snackbar. -/
def adminCycleCreates : AdminCycleInput :=
  ⟨[], [], [], false, mkRat 1 10, "ACTION: 4".data, false, 0, 0, true, true,
    ⟨true, true, false⟩, false⟩

/-- Administration state after one unconfirmed create-post attempt. -/
def adminStateAttempted : AdminState := ⟨5, 1, 0, 0, 0, 0⟩

/-- A link to post `a`. -/
def linkA : Link := ⟨"https://wp-lab/2026/01/01/a/".data, "Post A".data⟩

/-- A link to post `b`. -/
def linkB : Link := ⟨"https://wp-lab/2026/01/02/b/".data, "Post B".data⟩

/-! ## Arithmetic of the allocation -/

/-- Truncation agrees with the floor on nonnegative products. -/
theorem pyIntMul_eq_floor (n : ℕ) (p : ℚ) (hp : 0 ≤ p) :
    pyIntMul n p = ⌊(n : ℚ) * p⌋ := by
  have hnum : 0 ≤ p.num := Rat.num_nonneg.mpr hp
  have hden : (0 : ℤ) ≤ (p.den : ℤ) := Int.natCast_nonneg p.den
  have hq : ((n : ℚ)) * p = (((n : ℤ) * p.num : ℤ) : ℚ) / ((p.den : ℕ) : ℚ) := by
    conv_lhs => rw [← Rat.num_div_den p]
    push_cast
    ring
  rw [pyIntMul, Int.tdiv_eq_ediv (by positivity) hden, hq,
    Rat.floor_intCast_div_natCast]

/-- Truncation of a nonnegative product is below the product. -/
theorem pyIntMul_le (n : ℕ) (p : ℚ) (hp : 0 ≤ p) :
    (pyIntMul n p : ℚ) ≤ (n : ℚ) * p := by
  rw [pyIntMul_eq_floor n p hp]
  exact Int.floor_le _

/-- Truncation of a nonnegative product is nonnegative. -/
theorem pyIntMul_nonneg (n : ℕ) (p : ℚ) (hp : 0 ≤ p) : 0 ≤ pyIntMul n p := by
  rw [pyIntMul_eq_floor n p hp]
  exact Int.floor_nonneg.mpr (by positivity)

/-- For a valid percentage pair the two explicit buckets never exceed the
fleet size. -/
theorem chrome_webkit_le_total (total : ℕ) (pc pw : ℚ)
    (hpc : 0 ≤ pc) (hpw : 0 ≤ pw) (hsum : pc + pw ≤ 1) :
    chromeCount total pc + webkitCount total pw ≤ (total : ℤ) := by
  have h1 : (chromeCount total pc : ℚ) ≤ (total : ℚ) * pc := pyIntMul_le _ _ hpc
  have h2 : (webkitCount total pw : ℚ) ≤ (total : ℚ) * pw := pyIntMul_le _ _ hpw
  have h3 : (total : ℚ) * pc + (total : ℚ) * pw ≤ (total : ℚ) := by
    have := mul_le_mul_of_nonneg_left hsum (by positivity : (0:ℚ) ≤ (total : ℚ))
    linarith [this]
  have : (chromeCount total pc : ℚ) + (webkitCount total pw : ℚ) ≤ (total : ℚ) := by
    linarith
  exact_mod_cast this

/-- Counting the three families in the pre-shuffle pool. -/
theorem browserPool_count (total : ℕ) (pc pw : ℚ) :
    (browserPool total pc pw).count BrowserType.chromium = (chromeCount total pc).toNat
    ∧ (browserPool total pc pw).count BrowserType.webkit = (webkitCount total pw).toNat
    ∧ (browserPool total pc pw).count BrowserType.firefox
        = (max 1 (firefoxCount total pc pw)).toNat := by
  refine ⟨?_, ?_, ?_⟩ <;>
    simp [browserPool, List.count_append, List.count_replicate]

/-- Length of the pre-shuffle pool. -/
theorem browserPool_length (total : ℕ) (pc pw : ℚ) :
    (browserPool total pc pw).length =
      (chromeCount total pc).toNat + (webkitCount total pw).toNat
        + (max 1 (firefoxCount total pc pw)).toNat := by
  simp [browserPool]
  omega

/-- Amended allocation contract (see `assign_browser_types`): for a valid
percentage pair and any permuting shuffle, the output always has length
`total`; whenever the firefox remainder is at least one, the three family
counts are exactly `int(total*pc)`, `int(total*pw)` and the remainder; and
each family appears at least once as soon as all three of those counts are
at least one. -/
theorem assign_browser_types_mix (num_users num_admins : ℕ) (pc pw : ℚ)
    (shuffle : List BrowserType → List BrowserType)
    (hpc : 0 ≤ pc) (hpw : 0 ≤ pw) (hsum : pc + pw ≤ 1)
    (hshuffle : ∀ l, (shuffle l).Perm l) :
    (AgentOrchestrator.assign_browser_types num_users num_admins pc pw shuffle).length
        = num_users + num_admins
    ∧ (1 ≤ firefoxCount (num_users + num_admins) pc pw →
        (AgentOrchestrator.assign_browser_types num_users num_admins pc pw shuffle).count
            BrowserType.chromium = (chromeCount (num_users + num_admins) pc).toNat
        ∧ (AgentOrchestrator.assign_browser_types num_users num_admins pc pw shuffle).count
            BrowserType.webkit = (webkitCount (num_users + num_admins) pw).toNat
        ∧ (AgentOrchestrator.assign_browser_types num_users num_admins pc pw shuffle).count
            BrowserType.firefox = (firefoxCount (num_users + num_admins) pc pw).toNat)
    ∧ (1 ≤ chromeCount (num_users + num_admins) pc →
       1 ≤ webkitCount (num_users + num_admins) pw →
       1 ≤ firefoxCount (num_users + num_admins) pc pw →
        BrowserType.chromium ∈
          AgentOrchestrator.assign_browser_types num_users num_admins pc pw shuffle
        ∧ BrowserType.webkit ∈
          AgentOrchestrator.assign_browser_types num_users num_admins pc pw shuffle
        ∧ BrowserType.firefox ∈
          AgentOrchestrator.assign_browser_types num_users num_admins pc pw shuffle) := by
  set T := num_users + num_admins with hT
  set nc := chromeCount T pc with hnc
  set nw := webkitCount T pw with hnw
  have hfdef : firefoxCount T pc pw = (T : ℤ) - nc - nw := rfl
  have hle : nc + nw ≤ (T : ℤ) := chrome_webkit_le_total T pc pw hpc hpw hsum
  have hncn : 0 ≤ nc := pyIntMul_nonneg T pc hpc
  have hnwn : 0 ≤ nw := pyIntMul_nonneg T pw hpw
  have hpoolLen := browserPool_length T pc pw
  have hpermLen : (shuffle (browserPool T pc pw)).length = (browserPool T pc pw).length :=
    (hshuffle (browserPool T pc pw)).length_eq
  have hTlen : T ≤ (browserPool T pc pw).length := by
    rw [hpoolLen]
    omega
  have hlen :
      (AgentOrchestrator.assign_browser_types num_users num_admins pc pw shuffle).length
        = T := by
    rw [AgentOrchestrator.assign_browser_types, List.length_take, ← hT, hpermLen]
    omega
  refine ⟨hlen, ?_, ?_⟩
  · intro hff
    have hfull : (browserPool T pc pw).length = T := by
      rw [hpoolLen]
      omega
    have htake :
        AgentOrchestrator.assign_browser_types num_users num_admins pc pw shuffle
          = shuffle (browserPool T pc pw) := by
      rw [AgentOrchestrator.assign_browser_types, ← hT]
      exact List.take_of_length_le (by rw [hpermLen, hfull])
    have hmax : max 1 (firefoxCount T pc pw) = firefoxCount T pc pw := by
      omega
    have hcounts := browserPool_count T pc pw
    rw [htake]
    refine ⟨?_, ?_, ?_⟩
    · rw [(hshuffle (browserPool T pc pw)).count_eq]
      exact hcounts.1
    · rw [(hshuffle (browserPool T pc pw)).count_eq]
      exact hcounts.2.1
    · rw [(hshuffle (browserPool T pc pw)).count_eq, hcounts.2.2, hmax]
  · intro hc hw hff
    have hfull : (browserPool T pc pw).length = T := by
      rw [hpoolLen]
      omega
    have htake :
        AgentOrchestrator.assign_browser_types num_users num_admins pc pw shuffle
          = shuffle (browserPool T pc pw) := by
      rw [AgentOrchestrator.assign_browser_types, ← hT]
      exact List.take_of_length_le (by rw [hpermLen, hfull])
    have hcounts := browserPool_count T pc pw
    rw [htake]
    refine ⟨?_, ?_, ?_⟩
    · rw [← List.count_pos_iff, (hshuffle (browserPool T pc pw)).count_eq, hcounts.1]
      omega
    · rw [← List.count_pos_iff, (hshuffle (browserPool T pc pw)).count_eq, hcounts.2.1]
      omega
    · rw [← List.count_pos_iff, (hshuffle (browserPool T pc pw)).count_eq, hcounts.2.2]
      omega


/-! ## Parser and session lemmas -/

/-- Lines without the `ACTION:` marker leave the parsed browsing action unchanged. -/
theorem parseUserLine_action_of_no_marker (st : UserAction × ℤ) (line : Str)
    (h : strContains line actionMarker = false) :
    (parseUserLine st line).1 = st.1 := by
  unfold parseUserLine
  simp only [h, Bool.false_eq_true, if_false]
  split
  · split <;> rfl
  · rfl

/-- Folding the browsing line parser over marker-free lines keeps the action. -/
theorem foldl_user_action_of_no_marker (lines : List Str) (st : UserAction × ℤ)
    (h : ∀ l ∈ lines, strContains l actionMarker = false) :
    (lines.foldl parseUserLine st).1 = st.1 := by
  induction lines generalizing st with
  | nil => rfl
  | cons c cs ih =>
    rw [List.foldl_cons]
    rw [ih (parseUserLine st c) (fun l hl => h l (List.mem_cons_of_mem c hl))]
    exact parseUserLine_action_of_no_marker st c (h c (List.mem_cons_self c cs))

/-- The line `ACTION: n` sets the browsing action to the n-th enumeration member. -/
theorem parseUserLine_actionLine (st : UserAction × ℤ) (n : ℕ)
    (h1 : 1 ≤ n) (h5 : n ≤ 5) :
    (parseUserLine st (actionLine n)).1 = userActionAt n := by
  interval_cases n <;> rfl

/-- Lines without the `ACTION:` marker leave the parsed administration action unchanged. -/
theorem parseAdminLine_action_of_no_marker (st : Option AdminAction × ℤ) (line : Str)
    (h : strContains line actionMarker = false) :
    (parseAdminLine st line).1 = st.1 := by
  unfold parseAdminLine
  simp only [h, Bool.false_eq_true, if_false]
  split
  · split <;> rfl
  · rfl

/-- Folding the administration line parser over marker-free lines keeps the action. -/
theorem foldl_admin_action_of_no_marker (lines : List Str) (st : Option AdminAction × ℤ)
    (h : ∀ l ∈ lines, strContains l actionMarker = false) :
    (lines.foldl parseAdminLine st).1 = st.1 := by
  induction lines generalizing st with
  | nil => rfl
  | cons c cs ih =>
    rw [List.foldl_cons]
    rw [ih (parseAdminLine st c) (fun l hl => h l (List.mem_cons_of_mem c hl))]
    exact parseAdminLine_action_of_no_marker st c (h c (List.mem_cons_self c cs))

/-- The line `ACTION: n` sets the administration action to the n-th enumeration member. -/
theorem parseAdminLine_actionLine (st : Option AdminAction × ℤ) (n : ℕ)
    (h1 : 1 ≤ n) (h5 : n ≤ 5) :
    (parseAdminLine st (actionLine n)).1 = some (adminActionAt n) := by
  interval_cases n <;> rfl

/-- Line-level form of the marker-parsing contract for both role parsers. -/
theorem marker_parsing_try (pre post : List Str) (n : ℕ)
    (h1 : 1 ≤ n) (h5 : n ≤ 5)
    (_hpre : ∀ l ∈ pre, strContains l actionMarker = false)
    (hpost : ∀ l ∈ post, strContains l actionMarker = false) :
    (userDecideLines (pre ++ actionLine n :: post)).1 = userActionAt n
    ∧ (adminDecideLines (pre ++ actionLine n :: post)).1 = some (adminActionAt n) := by
  constructor
  · unfold userDecideLines
    rw [List.foldl_append, List.foldl_cons]
    rw [foldl_user_action_of_no_marker post _ hpost]
    exact parseUserLine_actionLine _ n h1 h5
  · unfold adminDecideLines
    rw [List.foldl_append, List.foldl_cons]
    rw [foldl_admin_action_of_no_marker post _ hpost]
    exact parseAdminLine_actionLine _ n h1 h5

/-- The clamped oracle index always selects a member of the candidate list. -/
theorem oracleChosen_mem (linkNumber : ℤ) (links : List Link) (h : links ≠ []) :
    oracleChosen linkNumber links ∈ links := by
  unfold oracleChosen
  have hlen : 0 < links.length := List.length_pos.mpr h
  set n := if linkNumber < 1 ∨ (links.length : ℤ) < linkNumber then 1 else linkNumber with hn
  have hb : n.toNat - 1 < links.length := by
    rw [hn]
    split <;> omega
  rw [List.getD_eq_getElem?_getD, List.getElem?_eq_getElem hb]
  exact List.getElem_mem hb

/-- With a nonempty candidate list, `_click_link` always navigates to a candidate. -/
theorem click_link_target_mem (visited : List Str) (linkNumber : ℤ)
    (links : List Link) (h : links ≠ []) :
    ∃ l ∈ links, (UserAgent.click_link visited linkNumber links).1 = NavTarget.postNav l := by
  unfold UserAgent.click_link
  rw [if_neg h]
  dsimp only
  split
  · split
    · next l hfind => exact ⟨l, List.mem_of_find?_eq_some hfind, rfl⟩
    · exact ⟨oracleChosen linkNumber links, oracleChosen_mem _ _ h, rfl⟩
  · exact ⟨oracleChosen linkNumber links, oracleChosen_mem _ _ h, rfl⟩

/-- The item-number validation does not change the parsed action. -/
theorem admin_decide_action_fst (response : Str) (pendingLen remapDraw : ℕ) :
    (AdminAgent.decide_action response pendingLen remapDraw).1
      = (adminDecideLines (splitOnChar '\n' response)).1 := by
  unfold AdminAgent.decide_action
  dsimp only
  split <;> rfl

/-- The validated item number is 0 for an empty pending list and in `[1, len]` otherwise. -/
theorem admin_decide_action_index (response : Str) (pendingLen remapDraw : ℕ) :
    (pendingLen = 0 → (AdminAgent.decide_action response pendingLen remapDraw).2 = 0)
    ∧ (0 < pendingLen →
        1 ≤ (AdminAgent.decide_action response pendingLen remapDraw).2
        ∧ (AdminAgent.decide_action response pendingLen remapDraw).2 ≤ (pendingLen : ℤ)) := by
  unfold AdminAgent.decide_action
  dsimp only
  constructor
  · intro h0
    subst h0
    split
    · simp
    · next hcond =>
      push_neg at hcond
      omega
  · intro hpos
    have hmod : remapDraw % pendingLen < pendingLen := Nat.mod_lt _ hpos
    split
    · have hne : pendingLen ≠ 0 := by omega
      simp only [hne, ne_eq, not_false_eq_true, if_true, ite_true]
      constructor <;> omega
    · next hcond =>
      push_neg at hcond
      omega

/-- Every browsing cycle increments the action counter exactly once. -/
theorem user_cycle_actionCount (st : UserState) (inp : UserCycleInput) :
    (UserAgent.cycle st inp).state.actionCount = st.actionCount + 1 := by
  unfold UserAgent.cycle
  dsimp only
  repeat' split
  all_goals rfl

/-- Every administration cycle increments the action counter exactly once. -/
theorem admin_cycle_actionCount (st : AdminState) (inp : AdminCycleInput) :
    (AdminAgent.cycle st inp).state.actionCount = st.actionCount + 1 := by
  unfold AdminAgent.cycle
  dsimp only
  repeat' split
  all_goals (first | rfl | (simp only [createPostStep]; split <;> rfl))

/-- A raising cycle ends the browsing loop: the error flag is set and no later cycle runs. -/
theorem user_loop_stops (pre : List UserCycleInput) (inp : UserCycleInput)
    (rest : List UserCycleInput) (st : UserState)
    (hpre : ∀ c ∈ pre, ∀ s, (UserAgent.cycle s c).exitKind = CycleExit.nextCycle)
    (hraise : ∀ s, (UserAgent.cycle s inp).exitKind = CycleExit.raised) :
    (UserAgent.loop st (pre ++ inp :: rest)).2 = true
    ∧ (UserAgent.loop st (pre ++ inp :: rest)).1.actionCount
        = st.actionCount + pre.length + 1 := by
  induction pre generalizing st with
  | nil =>
    constructor
    · simp [UserAgent.loop, hraise st]
    · simp [UserAgent.loop, hraise st, user_cycle_actionCount]
  | cons c cs ih =>
    have hc := hpre c (List.mem_cons_self c cs)
    have hrec := ih ((UserAgent.cycle st c).state)
      (fun c' hc' => hpre c' (List.mem_cons_of_mem c hc'))
    constructor
    · simpa [UserAgent.loop, hc st] using hrec.1
    · have h2 := hrec.2
      rw [user_cycle_actionCount] at h2
      simp only [List.cons_append, UserAgent.loop, hc st, List.length_cons,
        List.append_eq]
      omega

/-- A raising cycle ends the administration loop: the error flag is set and no later cycle runs. -/
theorem admin_loop_stops (pre : List AdminCycleInput) (inp : AdminCycleInput)
    (rest : List AdminCycleInput) (st : AdminState)
    (hpre : ∀ c ∈ pre, ∀ s, (AdminAgent.cycle s c).exitKind = CycleExit.nextCycle)
    (hraise : ∀ s, (AdminAgent.cycle s inp).exitKind = CycleExit.raised) :
    (AdminAgent.loop st (pre ++ inp :: rest)).2 = true
    ∧ (AdminAgent.loop st (pre ++ inp :: rest)).1.actionCount
        = st.actionCount + pre.length + 1 := by
  induction pre generalizing st with
  | nil =>
    constructor
    · simp [AdminAgent.loop, hraise st]
    · simp [AdminAgent.loop, hraise st, admin_cycle_actionCount]
  | cons c cs ih =>
    have hc := hpre c (List.mem_cons_self c cs)
    have hrec := ih ((AdminAgent.cycle st c).state)
      (fun c' hc' => hpre c' (List.mem_cons_of_mem c hc'))
    constructor
    · simpa [AdminAgent.loop, hc st] using hrec.1
    · have h2 := hrec.2
      rw [admin_cycle_actionCount] at h2
      simp only [List.cons_append, AdminAgent.loop, hc st, List.length_cons,
        List.append_eq]
      omega

/-- Envelope of `UserAgent.run` once acquisition succeeded: one close call, summary emitted unless close raises, error flag mirroring the loop. -/
theorem user_run_inside_try (g c : Bool) (inputs : List UserCycleInput) :
    (UserAgent.run true true g c inputs).closeCalls = 1
    ∧ (c = false → (UserAgent.run true true g c inputs).propagates = false
        ∧ (UserAgent.run true true g c inputs).summaryEmitted = true)
    ∧ (UserAgent.run true true g c inputs).errorLogged
        = (if g then true else (UserAgent.loop initialUserState inputs).2)
    ∧ (g = false → (UserAgent.run true true g c inputs).finalState
        = (UserAgent.loop initialUserState inputs).1) := by
  unfold UserAgent.run
  dsimp only
  cases g <;> cases c <;> simp

/-- Envelope of `AdminAgent.run` once acquisition succeeded: one close call, summary emitted unless close raises, error flag mirroring the loop. -/
theorem admin_run_inside_try (g c : Bool) (inputs : List AdminCycleInput) :
    (AdminAgent.run true true g c inputs).closeCalls = 1
    ∧ (c = false → (AdminAgent.run true true g c inputs).propagates = false
        ∧ (AdminAgent.run true true g c inputs).summaryEmitted = true)
    ∧ (AdminAgent.run true true g c inputs).errorLogged
        = (if g then true else (AdminAgent.loop initialAdminState inputs).2)
    ∧ (g = false → (AdminAgent.run true true g c inputs).finalState
        = (AdminAgent.loop initialAdminState inputs).1) := by
  unfold AdminAgent.run
  dsimp only
  cases g <;> cases c <;> simp

/-- A `_create_post` call never touches `session_posts_created` itself. -/
theorem createPostStep_sessionPostsCreated (st : AdminState) (env : PublishEnv) :
    (createPostStep st env).sessionPostsCreated = st.sessionPostsCreated := by
  unfold createPostStep
  split <;> rfl

/-- A `_create_post` call increments `posts_created` exactly on confirmation. -/
theorem createPostStep_postsCreated (st : AdminState) (env : PublishEnv) :
    (createPostStep st env).postsCreated
      = st.postsCreated + (if publishConfirmed env = true then 1 else 0) := by
  unfold createPostStep
  split <;> simp_all

/-- When the forced-content check fires, the cycle reports it, skips the oracle, and (absent an exception) creates a post. -/
theorem admin_cycle_force_true (st : AdminState) (inp : AdminCycleInput)
    (hobs : inp.observeRaises = false)
    (hf : forcePostDecision st.sessionPostsCreated (st.actionCount + 1)
        inp.forceDraw = true) :
    (AdminAgent.cycle st inp).forced = true
    ∧ (AdminAgent.cycle st inp).oracleConsulted = false
    ∧ (inp.actRaises = false →
        (AdminAgent.cycle st inp).acted = AdminActed.createdPost) := by
  unfold AdminAgent.cycle
  dsimp only
  rw [if_neg (by simp [hobs]), if_pos hf]
  by_cases ha : inp.actRaises = true
  · rw [if_pos ha]
    exact ⟨rfl, rfl, fun hfa => absurd ha (by simp [hfa])⟩
  · rw [if_neg ha]
    exact ⟨rfl, rfl, fun _ => rfl⟩

/-- When the forced-content check does not fire, the cycle is not forced. -/
theorem admin_cycle_force_false (st : AdminState) (inp : AdminCycleInput)
    (hobs : inp.observeRaises = false)
    (hf : forcePostDecision st.sessionPostsCreated (st.actionCount + 1)
        inp.forceDraw = false) :
    (AdminAgent.cycle st inp).forced = false := by
  unfold AdminAgent.cycle
  dsimp only
  rw [if_neg (by simp [hobs]), if_neg (by simp [hf])]
  repeat' split
  all_goals rfl

/-- A cycle that raises while observing neither forces nor consults the oracle. -/
theorem admin_cycle_observe_raised (st : AdminState) (inp : AdminCycleInput)
    (hobs : inp.observeRaises = true) :
    (AdminAgent.cycle st inp).forced = false
    ∧ (AdminAgent.cycle st inp).oracleConsulted = false := by
  unfold AdminAgent.cycle
  dsimp only
  rw [if_pos hobs]
  exact ⟨rfl, rfl⟩

/-- The forced-content check fires exactly when the draw is under the branch threshold. -/
theorem forcePostDecision_iff (spc ac : ℕ) (u : ℚ) :
    forcePostDecision spc ac u = true
      ↔ (if spc = 0 ∧ 3 ≤ ac then u < mkRat 2 5 else u < mkRat 3 20) := by
  unfold forcePostDecision
  split <;> simp

/-- Once a post attempt is recorded, only the 0.15 branch remains reachable. -/
theorem forcePostDecision_of_pos (spc ac : ℕ) (u : ℚ) (h : 1 ≤ spc) :
    forcePostDecision spc ac u = decide (u < mkRat 3 20) := by
  unfold forcePostDecision
  rw [if_neg (by omega)]

/-- Dichotomy: a cycle either carries out a create-post (bumping the attempt counter and conditionally the confirmed counter) or leaves both counters unchanged. -/
theorem admin_cycle_counters (st : AdminState) (inp : AdminCycleInput) :
    ((AdminAgent.cycle st inp).acted = AdminActed.createdPost
      ∧ (AdminAgent.cycle st inp).state.sessionPostsCreated
          = st.sessionPostsCreated + 1
      ∧ (AdminAgent.cycle st inp).state.postsCreated
          = st.postsCreated
            + (if publishConfirmed inp.createEnv = true then 1 else 0))
    ∨ ((AdminAgent.cycle st inp).acted ≠ AdminActed.createdPost
      ∧ (AdminAgent.cycle st inp).state.sessionPostsCreated
          = st.sessionPostsCreated
      ∧ (AdminAgent.cycle st inp).state.postsCreated = st.postsCreated) := by
  unfold AdminAgent.cycle
  dsimp only
  repeat' split
  all_goals first
    | (left
       exact ⟨rfl, by simp [createPostStep_sessionPostsCreated],
         by simp_all [createPostStep_postsCreated]⟩)
    | (right
       exact ⟨by simp, rfl, rfl⟩)

/-- One cycle preserves `posts_created ≤ session_posts_created`. -/
theorem admin_cycle_invariant_step (st : AdminState) (inp : AdminCycleInput)
    (h : st.postsCreated ≤ st.sessionPostsCreated) :
    (AdminAgent.cycle st inp).state.postsCreated
      ≤ (AdminAgent.cycle st inp).state.sessionPostsCreated := by
  rcases admin_cycle_counters st inp with ⟨_, h1, h2⟩ | ⟨_, h1, h2⟩ <;>
    rw [h1, h2]
  · split <;> omega
  · exact h

/-- The whole loop preserves `posts_created ≤ session_posts_created`. -/
theorem admin_loop_invariant (inputs : List AdminCycleInput) (st : AdminState)
    (h : st.postsCreated ≤ st.sessionPostsCreated) :
    (AdminAgent.loop st inputs).1.postsCreated
      ≤ (AdminAgent.loop st inputs).1.sessionPostsCreated := by
  induction inputs generalizing st with
  | nil => simpa [AdminAgent.loop]
  | cons c cs ih =>
    have hstep := admin_cycle_invariant_step st c h
    cases hexit : (AdminAgent.cycle st c).exitKind with
    | nextCycle => simpa [AdminAgent.loop, hexit] using ih _ hstep
    | ended => simpa [AdminAgent.loop, hexit] using hstep
    | raised => simpa [AdminAgent.loop, hexit] using hstep

/-- The attempt counter `session_posts_created` never decreases. -/
theorem admin_cycle_spc_monotone (st : AdminState) (inp : AdminCycleInput) :
    st.sessionPostsCreated ≤ (AdminAgent.cycle st inp).state.sessionPostsCreated := by
  rcases admin_cycle_counters st inp with ⟨_, h1, _⟩ | ⟨_, h1, _⟩ <;> omega

/-! ## Claim theorems -/

/-- C1 (amended): for every fleet split, valid percentage pair
(nonnegative, summing with the firefox share to 1, hence `pc + pw ≤ 1`) and
any permuting shuffle, `_assign_browser_types` returns exactly
`T = num_users + num_admins` labels; whenever the firefox remainder
`T - int(T*pc) - int(T*pw)` is at least 1, chromium appears exactly
`int(T*pc)` times, webkit exactly `int(T*pw)` times and firefox exactly
the remainder; and each family appears at least once as soon as all three
of those counts are at least 1.  (The unamended claim fails: when the
remainder is 0 the forced extra firefox entry makes the pool one longer
than `T` and the truncation drops one random label, and `T ≥ 3` alone does
not make every family appear — see the counterexample.) -/
theorem C1_allocation_amended (num_users num_admins : ℕ) (pc pw : ℚ)
    (shuffle : List BrowserType → List BrowserType)
    (hpc : 0 ≤ pc) (hpw : 0 ≤ pw) (hsum : pc + pw ≤ 1)
    (hshuffle : ∀ l, (shuffle l).Perm l) :
    (AgentOrchestrator.assign_browser_types num_users num_admins pc pw shuffle).length
        = num_users + num_admins
    ∧ (1 ≤ firefoxCount (num_users + num_admins) pc pw →
        (AgentOrchestrator.assign_browser_types num_users num_admins pc pw shuffle).count
            BrowserType.chromium = (chromeCount (num_users + num_admins) pc).toNat
        ∧ (AgentOrchestrator.assign_browser_types num_users num_admins pc pw shuffle).count
            BrowserType.webkit = (webkitCount (num_users + num_admins) pw).toNat
        ∧ (AgentOrchestrator.assign_browser_types num_users num_admins pc pw shuffle).count
            BrowserType.firefox = (firefoxCount (num_users + num_admins) pc pw).toNat)
    ∧ (1 ≤ chromeCount (num_users + num_admins) pc →
       1 ≤ webkitCount (num_users + num_admins) pw →
       1 ≤ firefoxCount (num_users + num_admins) pc pw →
        BrowserType.chromium ∈
          AgentOrchestrator.assign_browser_types num_users num_admins pc pw shuffle
        ∧ BrowserType.webkit ∈
          AgentOrchestrator.assign_browser_types num_users num_admins pc pw shuffle
        ∧ BrowserType.firefox ∈
          AgentOrchestrator.assign_browser_types num_users num_admins pc pw shuffle) :=
  assign_browser_types_mix num_users num_admins pc pw shuffle hpc hpw hsum hshuffle

/-- C1 witness: the shipped configuration (20 visitors, 3 administrators,
80% / 15% / 5%) with the identity shuffle yields 23 labels split
18 / 3 / 2. -/
theorem C1_witness :
    (AgentOrchestrator.assign_browser_types 20 3 (mkRat 4 5) (mkRat 3 20) id).length = 23
    ∧ (AgentOrchestrator.assign_browser_types 20 3 (mkRat 4 5) (mkRat 3 20) id).count
        BrowserType.chromium = 18
    ∧ (AgentOrchestrator.assign_browser_types 20 3 (mkRat 4 5) (mkRat 3 20) id).count
        BrowserType.webkit = 3
    ∧ (AgentOrchestrator.assign_browser_types 20 3 (mkRat 4 5) (mkRat 3 20) id).count
        BrowserType.firefox = 2 := by
  have h := C1_allocation_amended 20 3 (mkRat 4 5) (mkRat 3 20) id
    (by decide) (by decide) (by norm_num [Rat.mkRat_eq_div])
    (fun l => List.Perm.refl l)
  have hc := h.2.1 (by decide)
  exact ⟨h.1, by rw [hc.1]; decide, by rw [hc.2.1]; decide, by rw [hc.2.2]; decide⟩

/-- C1 counterexample: with the valid default triple (4/5, 3/20, 1/20) and
fleet size `T = 3 ≥ 3`, webkit receives `int(3 * 3/20) = 0` agents: the
pre-shuffle pool contains no webkit entry at all, so no shuffle can make
every family appear, contradicting the claim that each of the three
families appears at least once whenever `T ≥ 3`. -/
theorem C1_counterexample :
    ((0:ℚ) ≤ mkRat 4 5 ∧ (0:ℚ) ≤ mkRat 3 20 ∧ (0:ℚ) ≤ mkRat 1 20
      ∧ mkRat 4 5 + mkRat 3 20 + mkRat 1 20 = 1)
    ∧ (AgentOrchestrator.assign_browser_types 2 1 (mkRat 4 5) (mkRat 3 20) id).length = 3
    ∧ (AgentOrchestrator.assign_browser_types 2 1 (mkRat 4 5) (mkRat 3 20) id).count
        BrowserType.webkit = 0
    ∧ (browserPool 3 (mkRat 4 5) (mkRat 3 20)).count BrowserType.webkit = 0 :=
  ⟨⟨by decide, by decide, by decide, by norm_num [Rat.mkRat_eq_div]⟩,
    by decide, by decide, by decide⟩

/-- C2 (amended): an exception raised during the Deciding or Acting phase
of a cycle (at any point without a local handler) is caught at the
*session* boundary, not the cycle boundary: the session's cycle loop ends
at that cycle (no later cycle runs), the error is logged, the context is
released once, the per-session summary is still emitted, and nothing
propagates to the orchestrator.  This holds for browsing and for
administration sessions. -/
theorem C2_failure_policy_amended :
    (∀ (pre rest : List UserCycleInput) (inp : UserCycleInput),
      (∀ c ∈ pre, ∀ s, (UserAgent.cycle s c).exitKind = CycleExit.nextCycle) →
      (∀ s, (UserAgent.cycle s inp).exitKind = CycleExit.raised) →
      (UserAgent.run true true false false (pre ++ inp :: rest)).errorLogged = true
      ∧ (UserAgent.run true true false false (pre ++ inp :: rest)).finalState.actionCount
          = pre.length + 1
      ∧ (UserAgent.run true true false false (pre ++ inp :: rest)).closeCalls = 1
      ∧ (UserAgent.run true true false false (pre ++ inp :: rest)).summaryEmitted = true
      ∧ (UserAgent.run true true false false (pre ++ inp :: rest)).propagates = false)
    ∧ (∀ (pre rest : List AdminCycleInput) (inp : AdminCycleInput),
      (∀ c ∈ pre, ∀ s, (AdminAgent.cycle s c).exitKind = CycleExit.nextCycle) →
      (∀ s, (AdminAgent.cycle s inp).exitKind = CycleExit.raised) →
      (AdminAgent.run true true false false (pre ++ inp :: rest)).errorLogged = true
      ∧ (AdminAgent.run true true false false (pre ++ inp :: rest)).finalState.actionCount
          = pre.length + 1
      ∧ (AdminAgent.run true true false false (pre ++ inp :: rest)).closeCalls = 1
      ∧ (AdminAgent.run true true false false (pre ++ inp :: rest)).summaryEmitted = true
      ∧ (AdminAgent.run true true false false (pre ++ inp :: rest)).propagates = false) := by
  constructor
  · intro pre rest inp hpre hraise
    have hrun := user_run_inside_try false false (pre ++ inp :: rest)
    have hloop := user_loop_stops pre inp rest initialUserState hpre hraise
    have herr : (UserAgent.run true true false false (pre ++ inp :: rest)).errorLogged
        = true := by
      rw [hrun.2.2.1]
      simpa using hloop.1
    refine ⟨herr, ?_, hrun.1, (hrun.2.1 rfl).2, (hrun.2.1 rfl).1⟩
    rw [hrun.2.2.2 rfl]
    simpa [initialUserState] using hloop.2
  · intro pre rest inp hpre hraise
    have hrun := admin_run_inside_try false false (pre ++ inp :: rest)
    have hloop := admin_loop_stops pre inp rest initialAdminState hpre hraise
    have herr : (AdminAgent.run true true false false (pre ++ inp :: rest)).errorLogged
        = true := by
      rw [hrun.2.2.1]
      simpa using hloop.1
    refine ⟨herr, ?_, hrun.1, (hrun.2.1 rfl).2, (hrun.2.1 rfl).1⟩
    rw [hrun.2.2.2 rfl]
    simpa [initialAdminState] using hloop.2

/-- C2 witness: a browsing session whose first cycle raises in the
Deciding phase stops after that cycle with the error logged, the context
closed once and the summary emitted. -/
theorem C2_witness :
    (UserAgent.run true true false false
        ([] ++ userCycleOracleRaises :: [userCycleReads])).errorLogged = true
    ∧ (UserAgent.run true true false false
        ([] ++ userCycleOracleRaises :: [userCycleReads])).finalState.actionCount = 1
    ∧ (UserAgent.run true true false false
        ([] ++ userCycleOracleRaises :: [userCycleReads])).closeCalls = 1
    ∧ (UserAgent.run true true false false
        ([] ++ userCycleOracleRaises :: [userCycleReads])).summaryEmitted = true
    ∧ (UserAgent.run true true false false
        ([] ++ userCycleOracleRaises :: [userCycleReads])).propagates = false :=
  C2_failure_policy_amended.1 [] [userCycleReads] userCycleOracleRaises
    (by simp) (fun s => rfl)

/-- C2 counterexample: the claim says a Deciding-phase exception is a
no-op for that cycle and the session proceeds to the next cycle.  In the
code the `try` wraps the whole `while` loop, so the session stops instead:
with two scheduled cycles whose first raises, only one cycle runs
(`action_count = 1`, error logged), while the same two cycles without the
exception both run (`action_count = 2`). -/
theorem C2_counterexample :
    (UserAgent.run true true false false
        [userCycleOracleRaises, userCycleReads]).finalState.actionCount = 1
    ∧ (UserAgent.run true true false false
        [userCycleOracleRaises, userCycleReads]).errorLogged = true
    ∧ (UserAgent.run true true false false
        [userCycleReads, userCycleReads]).finalState.actionCount = 2 := by
  refine ⟨by decide, by decide, by decide⟩

/-- C3 (amended): the orchestrator aborts exactly when some session's
`run` propagates an exception; a session whose context/page acquisition
succeeded and whose context release does not raise never propagates and
always emits its summary (failures inside its loop included); but
acquisition and release failures do propagate, so they abort the whole
orchestrator run instead of being converted into a terminated-with-error
summary.  The browser teardown in `finally` runs in every case. -/
theorem C3_isolation_amended :
    (∀ fleet : List AgentSpec,
      (AgentOrchestrator.run fleet).aborts = false
        ↔ ∀ s ∈ fleet, AgentSpec.propagates s = false)
    ∧ (∀ s : AgentSpec, AgentSpec.boundaryOk s = true →
        AgentSpec.propagates s = false ∧ AgentSpec.summaryEmitted s = true)
    ∧ (∀ fleet : List AgentSpec,
        (AgentOrchestrator.run fleet).browsersStopped = true) := by
  refine ⟨?_, ?_, fun _ => rfl⟩
  · intro fleet
    simp [AgentOrchestrator.run, List.any_eq_false]
  · intro s hok
    cases s with
    | userSpec a n g c i =>
      simp only [AgentSpec.boundaryOk, Bool.and_eq_true, Bool.not_eq_true'] at hok
      obtain ⟨⟨ha, hn⟩, hc⟩ := hok
      subst ha hn hc
      exact ⟨((user_run_inside_try g false i).2.1 rfl).1,
        ((user_run_inside_try g false i).2.1 rfl).2⟩
    | adminSpec a n l c i =>
      simp only [AgentSpec.boundaryOk, Bool.and_eq_true, Bool.not_eq_true'] at hok
      obtain ⟨⟨ha, hn⟩, hc⟩ := hok
      subst ha hn hc
      exact ⟨((admin_run_inside_try l false i).2.1 rfl).1,
        ((admin_run_inside_try l false i).2.1 rfl).2⟩

/-- C3 witness: a healthy session neither propagates nor loses its
summary. -/
theorem C3_witness :
    AgentSpec.propagates agentHealthy = false
    ∧ AgentSpec.summaryEmitted agentHealthy = true
    ∧ ((AgentOrchestrator.run [agentHealthy]).aborts = false
        ↔ ∀ s ∈ [agentHealthy], AgentSpec.propagates s = false) :=
  ⟨(C3_isolation_amended.2.1 agentHealthy rfl).1,
    (C3_isolation_amended.2.1 agentHealthy rfl).2,
    C3_isolation_amended.1 [agentHealthy]⟩

/-- C3 counterexample: a single session whose context acquisition fails
propagates out of `asyncio.gather` and aborts the orchestrator run (and
no terminated-with-error summary is emitted for it), contradicting the
claim that no session failure ever aborts the orchestrator. -/
theorem C3_counterexample :
    (AgentOrchestrator.run [agentAcquireFails]).aborts = true
    ∧ AgentSpec.summaryEmitted agentAcquireFails = false
    ∧ AgentSpec.propagates agentAcquireFails = true := by
  refine ⟨by decide, by decide, by decide⟩

/-- C4 (amended): the administration parser remaps its item index into
`[1, pendingCount]` (or to 0 when the pending list is empty), but its
action may be Python `None` — outside the closed enumeration — when no
marker is recognised; the browsing parser leaves its link index raw in the
`DecisionResponse`, and the out-of-range remap happens only at the
follow-link use site, which always navigates to a member of the candidate
list when one exists and to the homepage when none does. -/
theorem C4_decision_invariants_amended :
    (∀ (response : Str) (pendingLen remapDraw : ℕ),
      (pendingLen = 0 →
        (AdminAgent.decide_action response pendingLen remapDraw).2 = 0)
      ∧ (0 < pendingLen →
        1 ≤ (AdminAgent.decide_action response pendingLen remapDraw).2
        ∧ (AdminAgent.decide_action response pendingLen remapDraw).2
            ≤ (pendingLen : ℤ)))
    ∧ (∀ (visited : List Str) (linkNumber : ℤ) (links : List Link),
        links ≠ [] → ∃ l ∈ links,
          (UserAgent.click_link visited linkNumber links).1 = NavTarget.postNav l)
    ∧ (∀ (visited : List Str) (linkNumber : ℤ),
        (UserAgent.click_link visited linkNumber []).1 = NavTarget.homeNav) :=
  ⟨fun response pendingLen remapDraw =>
      admin_decide_action_index response pendingLen remapDraw,
    fun visited linkNumber links h =>
      click_link_target_mem visited linkNumber links h,
    fun _ _ => rfl⟩

/-- C4 witness: an out-of-range `ITEM_NUMBER: 99` with three pending
comments is remapped into `[1, 3]` (here to 2), the same response with no
pending comments yields index 0, and follow-link with no candidates goes
home. -/
theorem C4_witness :
    (AdminAgent.decide_action "ACTION: 1\nITEM_NUMBER: 99".data 0 5).2 = 0
    ∧ 1 ≤ (AdminAgent.decide_action "ACTION: 1\nITEM_NUMBER: 99".data 3 1).2
    ∧ (AdminAgent.decide_action "ACTION: 1\nITEM_NUMBER: 99".data 3 1).2 ≤ (3 : ℤ)
    ∧ (UserAgent.click_link [] 5 []).1 = NavTarget.homeNav := by
  have h := C4_decision_invariants_amended
  exact ⟨(h.1 "ACTION: 1\nITEM_NUMBER: 99".data 0 5).1 rfl,
    ((h.1 "ACTION: 1\nITEM_NUMBER: 99".data 3 1).2 (by decide)).1,
    ((h.1 "ACTION: 1\nITEM_NUMBER: 99".data 3 1).2 (by decide)).2,
    h.2.2 [] 5⟩

/-- C4 counterexample: the administration parser returns Python `None`
(no member of the enumeration) on markerless guidance, and the browsing
parser's `DecisionResponse` keeps the raw out-of-range index 99 even when
only one candidate exists — both contradict the claimed parse-time
invariants. -/
theorem C4_counterexample :
    (AdminAgent.decide_action "I will review the queue later.".data 1 0).1 = none
    ∧ (UserAgent.decide_action "ACTION: 2\nLINK_NUMBER: 99".data).2 = 99 := by
  refine ⟨by decide, by decide⟩

/-- C5 (amended): guidance whose line decomposition contains the single
marker line `ACTION: n` (`n` in 1..5) and no other `ACTION:` marker yields
the n-th action of the role's enumeration for both parsers, independent of
surrounding text.  On guidance with no `ACTION:` marker at all, the
browsing parser returns its default `read`, but the administration parser
returns no action (Python `None`) rather than any documented default
member of its enumeration. -/
theorem C5_marker_parsing_amended :
    (∀ (response : Str) (pre post : List Str) (n pendingLen remapDraw : ℕ),
      1 ≤ n → n ≤ 5 →
      splitOnChar '\n' response = pre ++ actionLine n :: post →
      (∀ l ∈ pre, strContains l actionMarker = false) →
      (∀ l ∈ post, strContains l actionMarker = false) →
      (UserAgent.decide_action response).1 = userActionAt n
      ∧ (AdminAgent.decide_action response pendingLen remapDraw).1
          = some (adminActionAt n))
    ∧ (∀ (response : Str) (pendingLen remapDraw : ℕ),
      (∀ l ∈ splitOnChar '\n' response, strContains l actionMarker = false) →
      (UserAgent.decide_action response).1 = UserAction.read
      ∧ (AdminAgent.decide_action response pendingLen remapDraw).1 = none) := by
  constructor
  · intro response pre post n pendingLen remapDraw h1 h5 hsplit hpre hpost
    have h := marker_parsing_try pre post n h1 h5 hpre hpost
    constructor
    · rw [UserAgent.decide_action, hsplit]
      exact h.1
    · rw [admin_decide_action_fst, hsplit]
      exact h.2
  · intro response pendingLen remapDraw hnone
    constructor
    · rw [UserAgent.decide_action]
      exact foldl_user_action_of_no_marker _ _ hnone
    · rw [admin_decide_action_fst]
      exact foldl_admin_action_of_no_marker _ _ hnone

/-- C5 witness: `ACTION: 3` surrounded by marker-free text yields the
3rd-valued action for both roles (`comment` for visitors, `reply` for
administrators). -/
theorem C5_witness :
    (UserAgent.decide_action "Some intro\nACTION: 3\nITEM_NUMBER: 2".data).1
        = userActionAt 3
    ∧ (AdminAgent.decide_action "Some intro\nACTION: 3\nITEM_NUMBER: 2".data 0 0).1
        = some (adminActionAt 3)
    ∧ userActionAt 3 = UserAction.comment
    ∧ adminActionAt 3 = AdminAction.reply := by
  have h := C5_marker_parsing_amended.1 "Some intro\nACTION: 3\nITEM_NUMBER: 2".data
    ["Some intro".data] ["ITEM_NUMBER: 2".data] 3 0 0
    (by decide) (by decide) (by decide) (by decide) (by decide)
  exact ⟨h.1, h.2, by decide, by decide⟩

/-- C5 counterexample: markerless guidance makes the administration
parser return Python `None` — it returns no action of the enumeration at
all, so there is no documented default action for the administrator
role. -/
theorem C5_counterexample :
    (AdminAgent.decide_action "Looks fine, keep moderating.".data 2 0).1 = none := by
  decide

/-- C6 (confirmed): in every administration cycle that reaches the check
(observation did not raise), the forced-create flag is set exactly when
the `random.random()` draw is under 0.40 if no post has been created this
session and the action counter (which counts the current cycle) is at
least 3, and under 0.15 otherwise; a forced cycle never consults the
oracle and (absent an exception) carries out create-post.  Over uniform
draws in `[0,1)`, the firing events are exactly the intervals
`[0, 2/5)` and `[0, 3/20)`, i.e. probabilities 0.40 and 0.15. -/
theorem C6_forced_content_policy (st : AdminState) (inp : AdminCycleInput)
    (hobs : inp.observeRaises = false) :
    ((AdminAgent.cycle st inp).forced = true ↔
      (if st.sessionPostsCreated = 0 ∧ 3 ≤ st.actionCount + 1
       then inp.forceDraw < mkRat 2 5 else inp.forceDraw < mkRat 3 20))
    ∧ ((AdminAgent.cycle st inp).forced = true →
        (AdminAgent.cycle st inp).oracleConsulted = false)
    ∧ ((AdminAgent.cycle st inp).forced = true → inp.actRaises = false →
        (AdminAgent.cycle st inp).acted = AdminActed.createdPost)
    ∧ {u : ℚ | 0 ≤ u ∧ u < 1 ∧ forcePostDecision 0 3 u = true}
        = Set.Ico (0 : ℚ) (mkRat 2 5)
    ∧ {u : ℚ | 0 ≤ u ∧ u < 1 ∧ forcePostDecision 1 7 u = true}
        = Set.Ico (0 : ℚ) (mkRat 3 20) := by
  refine ⟨?_, ?_, ?_, ?_, ?_⟩
  · by_cases hd : forcePostDecision st.sessionPostsCreated (st.actionCount + 1)
        inp.forceDraw = true
    · rw [(admin_cycle_force_true st inp hobs hd).1]
      simp only [true_iff]
      exact (forcePostDecision_iff _ _ _).mp hd
    · have hd' : forcePostDecision st.sessionPostsCreated (st.actionCount + 1)
          inp.forceDraw = false := Bool.eq_false_iff.mpr hd
      rw [admin_cycle_force_false st inp hobs hd']
      simp only [Bool.false_eq_true, false_iff]
      intro hcontra
      exact hd ((forcePostDecision_iff _ _ _).mpr hcontra)
  · intro hf
    by_cases hd : forcePostDecision st.sessionPostsCreated (st.actionCount + 1)
        inp.forceDraw = true
    · exact (admin_cycle_force_true st inp hobs hd).2.1
    · rw [admin_cycle_force_false st inp hobs (Bool.eq_false_iff.mpr hd)] at hf
      cases hf
  · intro hf hact
    by_cases hd : forcePostDecision st.sessionPostsCreated (st.actionCount + 1)
        inp.forceDraw = true
    · exact (admin_cycle_force_true st inp hobs hd).2.2 hact
    · rw [admin_cycle_force_false st inp hobs (Bool.eq_false_iff.mpr hd)] at hf
      cases hf
  · ext u
    simp only [Set.mem_setOf_eq, Set.mem_Ico, forcePostDecision]
    constructor
    · rintro ⟨h0, _, hlt⟩
      refine ⟨h0, ?_⟩
      simpa using hlt
    · rintro ⟨h0, hlt⟩
      exact ⟨h0, lt_trans hlt (by decide), by simpa using hlt⟩
  · ext u
    simp only [Set.mem_setOf_eq, Set.mem_Ico, forcePostDecision]
    constructor
    · rintro ⟨h0, _, hlt⟩
      refine ⟨h0, ?_⟩
      simpa using hlt
    · rintro ⟨h0, hlt⟩
      exact ⟨h0, lt_trans hlt (by decide), by simpa using hlt⟩

/-- C6 witness: a session in its third cycle with no post yet and a draw
of 1/5 is forced under the 0.40 branch, skips the oracle, and creates a
post. -/
theorem C6_witness :
    adminCycleForced.observeRaises = false
    ∧ (AdminAgent.cycle adminStateThirdCycle adminCycleForced).forced = true
    ∧ (AdminAgent.cycle adminStateThirdCycle adminCycleForced).oracleConsulted = false
    ∧ (AdminAgent.cycle adminStateThirdCycle adminCycleForced).acted
        = AdminActed.createdPost := by
  have h := C6_forced_content_policy adminStateThirdCycle adminCycleForced rfl
  have hf : (AdminAgent.cycle adminStateThirdCycle adminCycleForced).forced = true :=
    h.1.mpr (by decide)
  exact ⟨rfl, hf, h.2.1 hf, h.2.2.1 hf rfl⟩

/-- C7 (amended): in a non-forced administration cycle whose pending and
approved lists are both empty (and whose primitives do not raise), the
session carries out create-post — *unless* the oracle explicitly chose the
`end` action, in which case the session ends rather than substituting
create-post.  (The unamended claim, that the action is always
create-post, fails on the `end` case — see the counterexample.) -/
theorem C7_starvation_amended (st : AdminState) (inp : AdminCycleInput)
    (hp : inp.pending = []) (ha : inp.approved = [])
    (hobs : inp.observeRaises = false) (hor : inp.oracleRaises = false)
    (hact : inp.actRaises = false)
    (hf : forcePostDecision st.sessionPostsCreated (st.actionCount + 1)
        inp.forceDraw = false) :
    ((AdminAgent.decide_action inp.oracle inp.pending.length inp.remapDraw).1
        = some AdminAction.endSession →
      (AdminAgent.cycle st inp).exitKind = CycleExit.ended
      ∧ (AdminAgent.cycle st inp).acted = AdminActed.sessionEnd)
    ∧ ((AdminAgent.decide_action inp.oracle inp.pending.length inp.remapDraw).1
        ≠ some AdminAction.endSession →
      (AdminAgent.cycle st inp).acted = AdminActed.createdPost
      ∧ (AdminAgent.cycle st inp).state.sessionPostsCreated
          = st.sessionPostsCreated + 1) := by
  unfold AdminAgent.cycle
  dsimp only
  rw [if_neg (by simp [hobs]), if_neg (by simp [hf]), if_neg (by simp [hor]),
    if_neg (by simp [hp]), if_neg (by simp [ha])]
  constructor
  · intro hend
    rw [if_neg (by simp [hend]), if_pos hend]
    exact ⟨rfl, rfl⟩
  · intro hnotend
    by_cases hcp : (AdminAgent.decide_action inp.oracle inp.pending.length
        inp.remapDraw).1 = some AdminAction.createPost
    · rw [if_pos hcp, if_neg (by simp [hact])]
      exact ⟨rfl, by simp [createPostStep_sessionPostsCreated]⟩
    · rw [if_neg hcp, if_neg hnotend, if_pos ⟨hp, ha⟩, if_neg (by simp [hact])]
      exact ⟨rfl, by simp [createPostStep_sessionPostsCreated]⟩

/-- C7 witness: with both moderation lists empty, a non-forcing draw and
markerless guidance (no oracle action), the session falls back to
create-post and records the attempt. -/
theorem C7_witness :
    (AdminAgent.cycle initialAdminState adminCycleStarved).acted
        = AdminActed.createdPost
    ∧ (AdminAgent.cycle initialAdminState adminCycleStarved).state.sessionPostsCreated
        = 1 := by
  have h := C7_starvation_amended initialAdminState adminCycleStarved
    rfl rfl rfl rfl rfl (by decide)
  exact ⟨(h.2 (by decide)).1, (h.2 (by decide)).2⟩

/-- C7 counterexample: with both lists empty and a non-forcing draw of
1/2, guidance `ACTION: 5` makes the session end — the executed action is
`end`, not create-post, contradicting the claim that the session never
ends on an empty moderation queue with a non-forcing draw. -/
theorem C7_counterexample :
    adminCycleOracleEnds.pending = []
    ∧ adminCycleOracleEnds.approved = []
    ∧ (AdminAgent.cycle initialAdminState adminCycleOracleEnds).forced = false
    ∧ (AdminAgent.cycle initialAdminState adminCycleOracleEnds).acted
        = AdminActed.sessionEnd
    ∧ (AdminAgent.cycle initialAdminState adminCycleOracleEnds).exitKind
        = CycleExit.ended
    ∧ (AdminAgent.cycle initialAdminState adminCycleOracleEnds).acted
        ≠ AdminActed.createdPost := by
  refine ⟨rfl, rfl, by decide, by decide, by decide, by decide⟩

/-- C8 (confirmed): in a follow-link action with a nonempty candidate
list whose oracle-chosen (clamped) candidate was already visited, the
session navigates to the first unvisited candidate in list order when one
exists (`List.find?` returns the first match), and keeps the
oracle-chosen candidate when every candidate has been visited. -/
theorem C8_follow_link_novelty (visited : List Str) (linkNumber : ℤ)
    (links : List Link) (h : links ≠ [])
    (hvis : visited.contains (oracleChosen linkNumber links).href = true) :
    (∀ l, links.find? (fun l => !(visited.contains l.href)) = some l →
       (UserAgent.click_link visited linkNumber links).1 = NavTarget.postNav l
       ∧ visited.contains l.href = false ∧ l ∈ links)
    ∧ ((∀ l ∈ links, visited.contains l.href = true) →
       (UserAgent.click_link visited linkNumber links).1
         = NavTarget.postNav (oracleChosen linkNumber links)) := by
  unfold UserAgent.click_link
  rw [if_neg h]
  dsimp only
  rw [if_pos hvis]
  constructor
  · intro l hfind
    rw [hfind]
    refine ⟨rfl, ?_, List.mem_of_find?_eq_some hfind⟩
    have := List.find?_some hfind
    simpa using this
  · intro hall
    have hnone : links.find? (fun l => !(visited.contains l.href)) = none := by
      rw [List.find?_eq_none]
      intro x hx
      simp only [Bool.not_eq_true]
      rw [hall x hx]
      rfl
    rw [hnone]

/-- C8 witness: with candidates `[a, b]`, oracle index 1 and `a` already
visited, the session navigates to the unvisited `b`. -/
theorem C8_witness :
    (UserAgent.click_link [linkA.href] 1 [linkA, linkB]).1 = NavTarget.postNav linkB
    ∧ [linkA.href].contains linkB.href = false
    ∧ linkB ∈ [linkA, linkB] := by
  have h := C8_follow_link_novelty [linkA.href] 1 [linkA, linkB]
    (by decide) (by decide)
  have hf := h.1 linkB (by decide)
  exact ⟨hf.1, hf.2.1, hf.2.2⟩

/-- C9 (confirmed): once a session has acquired its context and page (the
three claimed termination paths — duration expiry, the explicit end
action, and an error escaping the cycle loop — all lie inside the
`try`/`finally`), `context.close()` is called exactly once on every
input, in particular never twice and never zero times; this holds for
browsing and administration sessions, whether or not the close itself
raises. -/
theorem C9_context_release_once :
    (∀ (initialGotoRaises closeRaises : Bool) (inputs : List UserCycleInput),
      (UserAgent.run true true initialGotoRaises closeRaises inputs).closeCalls = 1)
    ∧ (∀ (loginRaises closeRaises : Bool) (inputs : List AdminCycleInput),
      (AdminAgent.run true true loginRaises closeRaises inputs).closeCalls = 1) :=
  ⟨fun g c i => (user_run_inside_try g c i).1,
    fun l c i => (admin_run_inside_try l c i).1⟩

/-- C10 (confirmed): every completed create-post — forced, oracle-chosen
or starvation fallback — increments `session_posts_created` by exactly one
while `posts_created` is incremented exactly on a confirmation signal
(publish button found and snackbar present or `post=` in the URL); no
other cycle outcome touches either counter; hence
`posts_created ≤ session_posts_created` is preserved by every cycle and
holds for the final state of every run; and once one attempt is recorded
the 0.40 branch is permanently disabled: the counter never decreases and
the forced check reduces to the 0.15 draw. -/
theorem C10_post_counters :
    (∀ (st : AdminState) (inp : AdminCycleInput),
      (AdminAgent.cycle st inp).acted = AdminActed.createdPost →
        (AdminAgent.cycle st inp).state.sessionPostsCreated
            = st.sessionPostsCreated + 1
        ∧ (AdminAgent.cycle st inp).state.postsCreated
            = st.postsCreated
              + (if publishConfirmed inp.createEnv = true then 1 else 0))
    ∧ (∀ (st : AdminState) (inp : AdminCycleInput),
      (AdminAgent.cycle st inp).acted ≠ AdminActed.createdPost →
        (AdminAgent.cycle st inp).state.sessionPostsCreated
            = st.sessionPostsCreated
        ∧ (AdminAgent.cycle st inp).state.postsCreated = st.postsCreated)
    ∧ (∀ (st : AdminState) (inp : AdminCycleInput),
        st.postsCreated ≤ st.sessionPostsCreated →
        (AdminAgent.cycle st inp).state.postsCreated
          ≤ (AdminAgent.cycle st inp).state.sessionPostsCreated)
    ∧ (∀ (acquireOk newPageOk loginRaises closeRaises : Bool)
        (inputs : List AdminCycleInput),
        (AdminAgent.run acquireOk newPageOk loginRaises closeRaises
            inputs).finalState.postsCreated
          ≤ (AdminAgent.run acquireOk newPageOk loginRaises closeRaises
            inputs).finalState.sessionPostsCreated)
    ∧ (∀ (st : AdminState) (inp : AdminCycleInput),
        1 ≤ st.sessionPostsCreated →
        ((AdminAgent.cycle st inp).forced = true
          ↔ (inp.observeRaises = false ∧ inp.forceDraw < mkRat 3 20))
        ∧ st.sessionPostsCreated
            ≤ (AdminAgent.cycle st inp).state.sessionPostsCreated) := by
  refine ⟨?_, ?_, ?_, ?_, ?_⟩
  · intro st inp hact
    rcases admin_cycle_counters st inp with ⟨_, h1, h2⟩ | ⟨hne, _, _⟩
    · exact ⟨h1, h2⟩
    · exact absurd hact hne
  · intro st inp hact
    rcases admin_cycle_counters st inp with ⟨heq, _, _⟩ | ⟨_, h1, h2⟩
    · exact absurd heq hact
    · exact ⟨h1, h2⟩
  · exact admin_cycle_invariant_step
  · intro a n l c inputs
    cases a <;> cases n <;> cases l <;> cases c <;>
      simp [AdminAgent.run, initialAdminState] <;>
      exact admin_loop_invariant inputs initialAdminState (Nat.le_refl 0)
  · intro st inp hspc
    constructor
    · cases hobs : inp.observeRaises with
      | true =>
        have h := admin_cycle_observe_raised st inp hobs
        rw [h.1]
        simp [hobs]
      | false =>
        have heq := forcePostDecision_of_pos st.sessionPostsCreated
          (st.actionCount + 1) inp.forceDraw hspc
        by_cases hd : forcePostDecision st.sessionPostsCreated
            (st.actionCount + 1) inp.forceDraw = true
        · rw [(admin_cycle_force_true st inp hobs hd).1]
          have hlt : inp.forceDraw < mkRat 3 20 := by
            rw [heq] at hd
            exact of_decide_eq_true hd
          simp [hobs, hlt]
        · have hd' := Bool.eq_false_iff.mpr hd
          rw [admin_cycle_force_false st inp hobs hd']
          have hnot : ¬ inp.forceDraw < mkRat 3 20 := fun hlt =>
            hd (by rw [heq]; exact decide_eq_true hlt)
          simp [hnot]
    · exact admin_cycle_spc_monotone st inp

/-- C10 witness: a completed non-forced create-post with a confirmed
publication bumps both counters; with one (unconfirmed) attempt already
recorded and a draw of 1/2, the forced check no longer fires. -/
theorem C10_witness :
    (AdminAgent.cycle initialAdminState adminCycleCreates).acted
        = AdminActed.createdPost
    ∧ (AdminAgent.cycle initialAdminState adminCycleCreates).state.sessionPostsCreated
        = 1
    ∧ (AdminAgent.cycle initialAdminState adminCycleCreates).state.postsCreated = 1
    ∧ (AdminAgent.cycle adminStateAttempted adminCycleStarved).forced = false := by
  have h := C10_post_counters
  have hact : (AdminAgent.cycle initialAdminState adminCycleCreates).acted
      = AdminActed.createdPost := by decide
  have ha := h.1 initialAdminState adminCycleCreates hact
  have hiff := (h.2.2.2.2 adminStateAttempted adminCycleStarved (by decide)).1
  have hne : ¬ (AdminAgent.cycle adminStateAttempted adminCycleStarved).forced
      = true := fun hf => by
    have hc := hiff.mp hf
    have : ¬ (adminCycleStarved.forceDraw < mkRat 3 20) := by decide
    exact this hc.2
  exact ⟨hact, by rw [ha.1]; decide, by rw [ha.2]; decide, Bool.eq_false_iff.mpr hne⟩
